import Mathlib

/-!
Verification of the audio-gear-catalog backend core (authentication gate,
catalog query engine, cart service, admin management service).

The Python/FastAPI/SQLAlchemy source is shallowly embedded:
* SQLAlchemy tables become Lean lists of structure values; `select ... where`
  becomes `List.filter`, `scalar_one_or_none` becomes an `Except`-valued
  head extraction that errors on multiple rows (MultipleResultsFound → 500);
  `db.delete` of a row removes the rows with its primary key.
* Floats (`price`, `rating`) are modelled as `ℚ`.
* The password-hashing and token-signing primitives are external collaborators
  and are passed in as function parameters.
* `created_at` columns are never read by the modelled operations and are
  therefore omitted.
* SQLite specifics that matter: `lower()` folds ASCII only (modelled by
  mapping `Char.toLower`); `ORDER BY expr DESC` places NULLs after all
  non-NULL values (NULL is smallest in SQLite); text comparison is bytewise
  on UTF-8, which agrees with the codepoint-lexicographic `List Char` order
  used for the name keys.
-/

/-- Error taxonomy of the HTTP layer: each constructor corresponds to one
status code raised by the routes (`detail` is the response detail string).
`internal` stands for an unhandled exception surfacing as HTTP 500, such
as `MultipleResultsFound` from `scalar_one_or_none` or an
`OperationalError` from executing invalid SQL. -/
inductive ApiError
  | unauthenticated
  | incorrectCredentials
  | forbidden (detail : String)
  | notFound (detail : String)
  | conflict (detail : String)
  | validation (detail : String)
  | internal
deriving DecidableEq

/-- `Result.scalar_one_or_none()`: `None` on no row, the row if unique,
raises `MultipleResultsFound` otherwise. -/
def scalar_one_or_none {α : Type} (l : List α) : Except ApiError (Option α) :=
  match l with
  | [] => .ok none
  | [a] => .ok (some a)
  | _ => .error .internal

/-- `Category = Literal["microphone", "headphones", "interface"]` -/
inductive Category
  | microphone
  | headphones
  | interface
deriving DecidableEq

/-- `GearItemORM` row / `GearItem` schema (`to_schema` copies the fields
one-to-one, so one structure serves for both). -/
structure GearItem where
  id : Nat
  name : String
  category : Category
  brand : String
  price : ℚ
  in_stock : Bool
  rating : Option ℚ
  description : Option String
  image_url : Option String
deriving DecidableEq

/-- `UserORM` row. -/
structure UserORM where
  id : Nat
  username : String
  hashed_password : String
  is_admin : Bool
deriving DecidableEq

/-- `CartItemORM` row.  `quantity` is an `Integer` column and the API layer
performs no sign validation, hence `Int`. -/
structure CartItemORM where
  id : Nat
  user_id : Nat
  gear_item_id : Nat
  quantity : Int
deriving DecidableEq

/-- `User` response schema: the authenticated identity. -/
structure User where
  username : String
  is_admin : Bool
deriving DecidableEq

/-- `CartItemResponse` schema. -/
structure CartItemResponse where
  id : Nat
  gear_item_id : Nat
  quantity : Int
  gear_item : GearItem
deriving DecidableEq

/-- `CartResponse` schema. -/
structure CartResponse where
  items : List CartItemResponse
  total : ℚ
deriving DecidableEq

/-- `PagedResponse` schema. -/
structure PagedResponse where
  items : List GearItem
  total : Nat
  page : Nat
  page_size : Nat
  pages : Nat
deriving DecidableEq

/-- The relational store: the three tables plus the autoincrement counters
for the primary keys that the modelled operations generate. -/
structure AppState where
  users : List UserORM
  gear_items : List GearItem
  cart_items : List CartItemORM
  next_user_id : Nat
  next_cart_item_id : Nat
deriving DecidableEq

/-! ### String primitives (Python `str.strip`/`str.isspace`, SQLite `lower`,
`LIKE`, `instr`, `length`) -/

/-- ASCII whitespace as recognised by Python's `str.strip()` / `str.isspace()`
(the usernames and search terms of interest are ASCII). -/
def isPySpace (c : Char) : Bool :=
  c = ' ' || c = '\t' || c = '\n' || c = '\r' || c = '\x0b' || c = '\x0c'

/-- Python `str.strip()`. -/
def pyStrip (s : String) : String :=
  ⟨((s.toList.dropWhile isPySpace).reverse.dropWhile isPySpace).reverse⟩

/-- SQLite `LIKE` matching (no escape character): `%` matches any sequence,
`_` matches any single character, other characters match themselves.  Both
sides are already lower-cased by the queries that use this. -/
def likeMatch : List Char → List Char → Bool
  | [], t => t.isEmpty
  | '%' :: ps, t => t.tails.any (fun suffix => likeMatch ps suffix)
  | '_' :: ps, t =>
      match t with
      | [] => false
      | _ :: ts => likeMatch ps ts
  | p :: ps, t =>
      match t with
      | [] => false
      | c :: ts => p == c && likeMatch ps ts

/-- ASCII case folding, as performed by SQLite's `lower()` (and by Python's
`str.lower()` on the ASCII inputs of interest).  Character lists are used
instead of `String` so that every comparison reduces in the kernel. -/
def asciiLower (s : String) : String :=
  ⟨s.data.map Char.toLower⟩

/-- `func.lower(name)` as a character list (SQLite text ordering is the
lexicographic codepoint order, which is the `List Char` order). -/
def lowerChars (s : String) : List Char :=
  s.data.map Char.toLower

/-- `lower(name) LIKE '%q_norm%'`. -/
def nameLike (q_norm : String) (name : String) : Bool :=
  likeMatch ('%' :: (q_norm.toList ++ ['%'])) (lowerChars name)

/-- SQLite `instr(hay, needle)`: 1-based position of the first occurrence of
`needle` in `hay`, `0` if there is none. -/
def instrAux (needle : List Char) : List Char → Nat → Nat
  | [], i => if needle.isEmpty then i else 0
  | c :: rest, i =>
      if needle.isPrefixOf (c :: rest) then i else instrAux needle rest (i + 1)

/-- SQLite `instr`. -/
def instr (hay : List Char) (needle : String) : Nat :=
  instrAux needle.toList hay 1

/-! ### Catalog Query Engine (`routes/catalog.py::list_gear`,
`routes/admin.py::admin_list_gear`) -/

/-- `ORDER BY` on a key into a linear order (SQL multi-column ordering is
the lexicographic order on the tuple of columns). -/
def sortByKey {K : Type} [LinearOrder K] (k : GearItem → K) (l : List GearItem) : List GearItem :=
  @List.insertionSort GearItem (fun a b => k a ≤ k b)
    (fun a b => inferInstanceAs (Decidable (k a ≤ k b))) l

/-- `func.lower(GearItemORM.name)` as an ordering key. -/
def lowerName (g : GearItem) : List Char :=
  lowerChars g.name

/-- Ordering key realising `rating` descending with NULLs last: absent
ratings rank strictly after all present ones, present ones by descending
value. -/
def ratingKey (g : GearItem) : ℕ ×ₗ ℚ :=
  match g.rating with
  | some r => toLex (0, -r)
  | none => toLex (1, 0)

/-- Ordering key for `asc(~GearItemORM.in_stock)`: in-stock rows first. -/
def stockKey (g : GearItem) : ℕ :=
  if g.in_stock then 0 else 1

/-- The public sort branches of `list_gear`, in source order, as the result
of executing the ordered items query.  The `rating_desc` branch applies
`desc(...)` on top of `GearItemORM.rating.nulls_last()` (the `hasattr`
guard succeeds on the SQLAlchemy 2.x that `db.py`'s `DeclarativeBase`
requires); SQLAlchemy compiles a unary modifier by appending its text to
its element, so the ordering term renders as `rating NULLS LAST DESC`,
which SQLite rejects as a syntax error — executing the items query raises
`OperationalError` (HTTP 500), modelled as `.error .internal`. -/
def sortGearPublic (sort : Option String) (q_norm : String) (l : List GearItem) :
    Except ApiError (List GearItem) :=
  if sort == some "price_asc" then
    .ok (sortByKey (fun g => toLex (g.price, lowerName g)) l)
  else if sort == some "price_desc" then
    .ok (sortByKey (fun g => toLex (OrderDual.toDual g.price, lowerName g)) l)
  else if sort == some "name_asc" then
    .ok (sortByKey lowerName l)
  else if sort == some "rating_desc" then
    .error .internal
  else if sort == some "in_stock" then
    .ok (sortByKey (fun g => toLex (stockKey g, g.price)) l)
  else if q_norm ≠ "" then
    .ok (sortByKey (fun g => toLex (instr (lowerName g) q_norm, g.name.length)) l)
  else
    .ok (sortByKey lowerName l)

/-- The admin sort branches of `admin_list_gear`, in source order
(default `name_asc`). -/
def sortGearAdmin (sort : Option String) (l : List GearItem) : List GearItem :=
  if sort == some "name_desc" then
    sortByKey (fun g => OrderDual.toDual (lowerName g)) l
  else if sort == some "price_asc" then
    sortByKey (fun g => toLex (g.price, lowerName g)) l
  else if sort == some "price_desc" then
    sortByKey (fun g => toLex (OrderDual.toDual g.price, lowerName g)) l
  else if sort == some "rating_desc" then
    sortByKey (fun g => toLex (ratingKey g, lowerName g)) l
  else if sort == some "id_asc" then
    sortByKey (fun g => g.id) l
  else if sort == some "id_desc" then
    sortByKey (fun g => OrderDual.toDual g.id) l
  else
    sortByKey lowerName l

/-- `(q or "").strip().lower()`. -/
def q_normalize (q : Option String) : String :=
  asciiLower (pyStrip (q.getD ""))

/-- The category filter plus the search condition
`func.lower(name).like('%q_norm%')` (both listing routes build the count
statement with the same two conditions, so one definition serves for the
item query and the count). -/
def filteredGear (db : List GearItem) (category : Option Category) (q_norm : String) : List GearItem :=
  let l := match category with
    | some c => db.filter (fun g => g.category == c)
    | none => db
  if q_norm ≠ "" then l.filter (fun g => nameLike q_norm g.name) else l

/-- The pagination block shared verbatim by `list_gear` and
`admin_list_gear`: `pages = max(1, (total + page_size - 1) // page_size)`,
clamp `page` to `pages`, slice `[start : start + page_size]`. -/
def buildPage (base sorted : List GearItem) (page page_size : Nat) : PagedResponse :=
  let total := base.length
  let pages := max 1 ((total + page_size - 1) / page_size)
  let page := if page > pages then pages else page
  let start := (page - 1) * page_size
  { items := (sorted.drop start).take page_size
    total := total
    page := page
    page_size := page_size
    pages := pages }

/-- `GET /api/gear` (`catalog.py::list_gear`).  The count statement carries
no `ORDER BY` and succeeds; the `OperationalError` of the `rating_desc`
ordering term surfaces when the ordered items query is executed, failing
the whole request, so the response is either a full page or that error. -/
def list_gear (db : List GearItem) (category : Option Category) (q : Option String)
    (sort : Option String) (page page_size : Nat) : Except ApiError PagedResponse :=
  let q_norm := q_normalize q
  let base := filteredGear db category q_norm
  match sortGearPublic sort q_norm base with
  | .error e => .error e
  | .ok sorted => .ok (buildPage base sorted page page_size)

/-- `GET /api/admin/gear` (`admin.py::admin_list_gear`). -/
def admin_list_gear (db : List GearItem) (category : Option Category) (q : Option String)
    (sort : Option String) (page page_size : Nat) : PagedResponse :=
  let q_norm := q_normalize q
  let base := filteredGear db category q_norm
  buildPage base (sortGearAdmin sort base) page page_size

/-! ### Pagination facts (claim C1) -/

theorem sortByKey_length {K : Type} [LinearOrder K] (k : GearItem → K) (l : List GearItem) :
    (sortByKey k l).length = l.length :=
  (List.perm_insertionSort _ l).length_eq

theorem sortGearPublic_ok_length (sort : Option String) (q_norm : String)
    (l sorted : List GearItem) (h : sortGearPublic sort q_norm l = .ok sorted) :
    sorted.length = l.length := by
  unfold sortGearPublic at h
  split_ifs at h <;> (try cases h) <;> exact sortByKey_length _ _

theorem sortGearPublic_ok_of_ne (sort : Option String) (q_norm : String)
    (l : List GearItem) (hs : sort ≠ some "rating_desc") :
    ∃ sorted, sortGearPublic sort q_norm l = .ok sorted := by
  unfold sortGearPublic
  split_ifs with h1 h2 h3 h4 h5 h6 <;>
    first
      | exact ⟨_, rfl⟩
      | exact absurd (by simpa using h4) hs

theorem sortGearAdmin_length (sort : Option String) (l : List GearItem) :
    (sortGearAdmin sort l).length = l.length := by
  unfold sortGearAdmin
  split_ifs <;> exact sortByKey_length _ _

/-- The pagination contract: the `total` field counts the filtered+searched
set, `pages = max(1, ceil(total / page_size))`, the `page` field is the
requested page clamped to `pages`, the items are the slice of the sorted
set at the clamped page, and the page is never empty while the set is. -/
def paginationSpec (total' : Nat) (sorted : List GearItem) (page page_size : Nat)
    (r : PagedResponse) : Prop :=
  r.total = total' ∧
  r.page_size = page_size ∧
  r.pages = max 1 (total' ⌈/⌉ page_size) ∧
  r.page = min page r.pages ∧
  r.items = (sorted.drop ((r.page - 1) * page_size)).take page_size ∧
  (0 < total' → r.items ≠ [])

theorem buildPage_paginationSpec (base sorted : List GearItem)
    (hlen : sorted.length = base.length) (page page_size : Nat)
    (hpage : 1 ≤ page) (hps : 1 ≤ page_size) :
    paginationSpec base.length sorted page page_size (buildPage base sorted page page_size) := by
  have hps0 : 0 < page_size := hps
  have hpagesEq : (buildPage base sorted page page_size).pages
      = max 1 ((base.length + page_size - 1) / page_size) := rfl
  have hpageEq : (buildPage base sorted page page_size).page
      = min page (buildPage base sorted page page_size).pages := by
    show (if page > max 1 ((base.length + page_size - 1) / page_size)
          then max 1 ((base.length + page_size - 1) / page_size) else page)
        = min page (max 1 ((base.length + page_size - 1) / page_size))
    split <;> omega
  refine ⟨rfl, rfl, by rw [Nat.ceilDiv_eq_add_pred_div]; exact hpagesEq, hpageEq, rfl, ?_⟩
  intro htot
  have hitems : (buildPage base sorted page page_size).items
      = (sorted.drop (((buildPage base sorted page page_size).page - 1) * page_size)).take
          page_size := rfl
  rw [hitems, hpageEq, hpagesEq]
  set pages := max 1 ((base.length + page_size - 1) / page_size) with hpages
  have h1 : 1 ≤ pages := le_max_left _ _
  have hceil : pages = (base.length + page_size - 1) / page_size := by
    have : 1 ≤ (base.length + page_size - 1) / page_size :=
      (Nat.one_le_div_iff hps0).mpr (by omega)
    omega
  have hmul : pages * page_size ≤ base.length + page_size - 1 := by
    rw [hceil]; exact Nat.div_mul_le_self _ _
  have hstart : (min page pages - 1) * page_size < base.length := by
    have hle : (min page pages - 1) * page_size ≤ (pages - 1) * page_size :=
      Nat.mul_le_mul_right _ (by omega)
    have heq : (pages - 1) * page_size = pages * page_size - page_size := by
      rw [Nat.sub_mul, one_mul]
    omega
  apply List.ne_nil_of_length_pos
  rw [List.length_take, List.length_drop, hlen]
  omega

/-- A seed-like one-row catalog, used to instantiate hypothesis-bearing
theorems at concrete inputs. -/
def shureSM58 : GearItem :=
  ⟨1, "Shure SM58", Category.microphone, "Shure", 429, true, some (48/10),
    some "Dynamic vocal microphone", none⟩

/-- C1 counterexample: a public catalog listing request with a valid page
and page size but `sort=rating_desc` returns an error instead of a paged
response — the invalid `rating NULLS LAST DESC` ordering term fails the
items query. -/
theorem listing_pagination_never_errors_cex :
    list_gear [shureSM58] none none (some "rating_desc") 1 12 = .error .internal := rfl

/-- C1 amended: for every admin gear listing request, and every public
catalog listing request whose sort is not `rating_desc`, with `page ≥ 1`
and `page_size ∈ [1, 1000]`, the engine reports
`pages = max(1, ceil(total / page_size))` with `total` the size of the
filtered+searched set, clamps an overlarge `page` to the last page and
returns that page's content, and never returns an error or an empty item
list while the set is nonempty; a public request with `sort=rating_desc`
instead fails with an error (HTTP 500). -/
theorem listing_pagination_clamps_except_public_rating_desc (db : List GearItem)
    (category : Option Category) (q sort : Option String) (page page_size : Nat)
    (hpage : 1 ≤ page) (hps : 1 ≤ page_size) (hps' : page_size ≤ 1000) :
    (sort ≠ some "rating_desc" →
      ∃ sorted r,
        sortGearPublic sort (q_normalize q) (filteredGear db category (q_normalize q))
          = .ok sorted ∧
        list_gear db category q sort page page_size = .ok r ∧
        paginationSpec (filteredGear db category (q_normalize q)).length sorted
          page page_size r) ∧
    (sort = some "rating_desc" →
      list_gear db category q sort page page_size = .error .internal) ∧
    paginationSpec (filteredGear db category (q_normalize q)).length
      (sortGearAdmin sort (filteredGear db category (q_normalize q)))
      page page_size (admin_list_gear db category q sort page page_size) := by
  refine ⟨?_, ?_, ?_⟩
  · intro hs
    obtain ⟨sorted, hsorted⟩ := sortGearPublic_ok_of_ne sort (q_normalize q)
      (filteredGear db category (q_normalize q)) hs
    refine ⟨sorted,
      buildPage (filteredGear db category (q_normalize q)) sorted page page_size,
      hsorted, ?_, ?_⟩
    · unfold list_gear
      dsimp only
      rw [hsorted]
    · exact buildPage_paginationSpec _ _
        (sortGearPublic_ok_length _ _ _ _ hsorted) _ _ hpage hps
  · intro hs
    subst hs
    rfl
  · unfold admin_list_gear
    exact buildPage_paginationSpec _ _ (sortGearAdmin_length _ _) _ _ hpage hps

theorem listing_pagination_clamps_except_public_rating_desc_witness :
    ((none : Option String) ≠ some "rating_desc" →
      ∃ sorted r,
        sortGearPublic none (q_normalize (some "shure"))
            (filteredGear [shureSM58] none (q_normalize (some "shure")))
          = .ok sorted ∧
        list_gear [shureSM58] none (some "shure") none 5 1 = .ok r ∧
        paginationSpec (filteredGear [shureSM58] none (q_normalize (some "shure"))).length
          sorted 5 1 r) ∧
    ((none : Option String) = some "rating_desc" →
      list_gear [shureSM58] none (some "shure") none 5 1 = .error .internal) ∧
    paginationSpec (filteredGear [shureSM58] none (q_normalize (some "shure"))).length
      (sortGearAdmin none (filteredGear [shureSM58] none (q_normalize (some "shure"))))
      5 1 (admin_list_gear [shureSM58] none (some "shure") none 5 1) :=
  listing_pagination_clamps_except_public_rating_desc [shureSM58] none (some "shure")
    none 5 1 (by decide) (by decide) (by decide)

/-! ### `rating_desc` ordering (claim C8) -/

theorem sortByKey_sorted {K : Type} [LinearOrder K] (k : GearItem → K) (l : List GearItem) :
    (sortByKey k l).Pairwise (fun a b => k a ≤ k b) := by
  haveI : IsTotal GearItem (fun a b => k a ≤ k b) := ⟨fun a b => le_total (k a) (k b)⟩
  haveI : IsTrans GearItem (fun a b => k a ≤ k b) := ⟨fun _ _ _ hab hbc => le_trans hab hbc⟩
  unfold sortByKey
  exact @List.sorted_insertionSort GearItem (fun a b => k a ≤ k b)
    (fun a b => inferInstanceAs (Decidable (k a ≤ k b))) _ _ l

/-- The `rating_desc` ordering asserted by the claim for a listing: rating
descending, absent ratings after present ones, ties broken by
case-insensitive name ascending. -/
def ratingNameOrder (a b : GearItem) : Prop :=
  toLex (ratingKey a, lowerName a) ≤ toLex (ratingKey b, lowerName b)

/-- Two items with equal ratings, a concrete input for the failing public
`rating_desc` route. -/
def gearAlpha : GearItem :=
  ⟨1, "Alpha", Category.microphone, "x", 100, true, some 4, none, none⟩

def gearBeta : GearItem :=
  ⟨2, "Beta", Category.microphone, "x", 50, true, some 4, none, none⟩

/-- C8: the public listing never sorts by rating at all — its `rating_desc`
branch builds the SQLite-invalid ordering term `rating NULLS LAST DESC`,
so every such request fails with an error (HTTP 500) instead of returning
items, evaluated here at a concrete two-item catalog and proved for every
input; the admin listing does return items ordered as the claim states:
rating descending, absent ratings last (SQLite sorts NULL smallest, hence
last under `DESC`), ties broken by case-insensitive name ascending. -/
theorem rating_desc_public_errors_admin_sorted :
    list_gear [gearAlpha, gearBeta] none none (some "rating_desc") 1 12
      = .error .internal ∧
    (∀ (db : List GearItem) (category : Option Category) (q : Option String)
        (page page_size : Nat),
      list_gear db category q (some "rating_desc") page page_size = .error .internal) ∧
    (∀ (db : List GearItem) (category : Option Category) (q : Option String)
        (page page_size : Nat),
      (admin_list_gear db category q (some "rating_desc") page page_size).items.Pairwise
        ratingNameOrder) := by
  refine ⟨rfl, fun db category q page page_size => rfl, ?_⟩
  intro db category q page page_size
  have hbr : sortGearAdmin (some "rating_desc") (filteredGear db category (q_normalize q))
      = sortByKey (fun g => toLex (ratingKey g, lowerName g))
          (filteredGear db category (q_normalize q)) := rfl
  have h := sortByKey_sorted (fun g => toLex (ratingKey g, lowerName g))
    (filteredGear db category (q_normalize q))
  rw [← hbr] at h
  exact List.Pairwise.sublist ((List.take_sublist _ _).trans (List.drop_sublist _ _)) h

/-! ### Cart Service (`routes/cart.py`) -/

/-- `select(UserORM).where(UserORM.username == username)` followed by
`scalar_one_or_none`. -/
def lookupUserByName (s : AppState) (username : String) : Except ApiError (Option UserORM) :=
  scalar_one_or_none (s.users.filter (fun u => u.username == username))

/-- `select(GearItemORM).where(GearItemORM.id == gid)` followed by
`scalar_one_or_none`. -/
def lookupGearById (gear : List GearItem) (gid : Nat) : Except ApiError (Option GearItem) :=
  scalar_one_or_none (gear.filter (fun g => g.id == gid))

/-- The item loop of `get_cart`: walks the user's cart rows in order,
resolves each gear reference, silently skips rows whose gear item no longer
exists, and accumulates the response items and the running total. -/
def cartItemsLoop (gear : List GearItem) :
    List CartItemORM → List CartItemResponse → ℚ → Except ApiError (List CartItemResponse × ℚ)
  | [], acc, total => .ok (acc, total)
  | ci :: rest, acc, total =>
      match lookupGearById gear ci.gear_item_id with
      | .error e => .error e
      | .ok none => cartItemsLoop gear rest acc total
      | .ok (some g) =>
          cartItemsLoop gear rest (acc ++ [⟨ci.id, ci.gear_item_id, ci.quantity, g⟩])
            (total + g.price * (ci.quantity : ℚ))

/-- `GET /api/cart` (`cart.py::get_cart`). -/
def get_cart (s : AppState) (current_user : String) : Except ApiError CartResponse :=
  match lookupUserByName s current_user with
  | .error e => .error e
  | .ok none => .error (.notFound "User not found")
  | .ok (some user) =>
      match cartItemsLoop s.gear_items
          (s.cart_items.filter (fun ci => ci.user_id == user.id)) [] 0 with
      | .error e => .error e
      | .ok (items, total) => .ok ⟨items, total⟩

/-- `POST /api/cart` (`cart.py::add_to_cart`).  Returns the response
together with the committed state. -/
def add_to_cart (s : AppState) (current_user : String) (gear_item_id : Nat)
    (quantity : Int) : Except ApiError (CartResponse × AppState) :=
  match lookupUserByName s current_user with
  | .error e => .error e
  | .ok none => .error (.notFound "User not found")
  | .ok (some user) =>
      match lookupGearById s.gear_items gear_item_id with
      | .error e => .error e
      | .ok none => .error (.notFound "Gear item not found")
      | .ok (some _) =>
          match scalar_one_or_none (s.cart_items.filter
              (fun ci => ci.user_id == user.id && ci.gear_item_id == gear_item_id)) with
          | .error e => .error e
          | .ok (some existing) =>
              let s' := { s with cart_items := s.cart_items.map (fun ci =>
                  if ci.id == existing.id then { ci with quantity := ci.quantity + quantity }
                  else ci) }
              match get_cart s' current_user with
              | .error e => .error e
              | .ok cart => .ok (cart, s')
          | .ok none =>
              let s' := { s with
                cart_items := s.cart_items
                  ++ [⟨s.next_cart_item_id, user.id, gear_item_id, quantity⟩],
                next_cart_item_id := s.next_cart_item_id + 1 }
              match get_cart s' current_user with
              | .error e => .error e
              | .ok cart => .ok (cart, s')

/-- `PATCH /api/cart/{cart_item_id}` (`cart.py::update_cart_item`). -/
def update_cart_item (s : AppState) (current_user : String) (cart_item_id : Nat)
    (quantity : Int) : Except ApiError (CartResponse × AppState) :=
  match lookupUserByName s current_user with
  | .error e => .error e
  | .ok none => .error (.notFound "User not found")
  | .ok (some user) =>
      match scalar_one_or_none (s.cart_items.filter
          (fun ci => ci.id == cart_item_id && ci.user_id == user.id)) with
      | .error e => .error e
      | .ok none => .error (.notFound "Cart item not found")
      | .ok (some cart_item) =>
          let s' :=
            if quantity ≤ 0 then
              { s with cart_items := s.cart_items.filter (fun ci => ci.id != cart_item.id) }
            else
              { s with cart_items := s.cart_items.map (fun ci =>
                  if ci.id == cart_item.id then { ci with quantity := quantity } else ci) }
          match get_cart s' current_user with
          | .error e => .error e
          | .ok cart => .ok (cart, s')

/-- `DELETE /api/cart/{cart_item_id}` (`cart.py::remove_from_cart`). -/
def remove_from_cart (s : AppState) (current_user : String) (cart_item_id : Nat) :
    Except ApiError (CartResponse × AppState) :=
  match lookupUserByName s current_user with
  | .error e => .error e
  | .ok none => .error (.notFound "User not found")
  | .ok (some user) =>
      match scalar_one_or_none (s.cart_items.filter
          (fun ci => ci.id == cart_item_id && ci.user_id == user.id)) with
      | .error e => .error e
      | .ok none => .error (.notFound "Cart item not found")
      | .ok (some cart_item) =>
          let s' := { s with
            cart_items := s.cart_items.filter (fun ci => ci.id != cart_item.id) }
          match get_cart s' current_user with
          | .error e => .error e
          | .ok cart => .ok (cart, s')

/-! ### Pure reformulations of the cart computation -/

/-- The gear row a cart row resolves to (primary-key lookup). -/
def resolveGear (gear : List GearItem) (gid : Nat) : Option GearItem :=
  (gear.filter (fun g => g.id == gid)).head?

/-- The response items of a row list: rows whose gear reference resolves, in
order; dangling references are skipped. -/
def resolvedItems (gear : List GearItem) (rows : List CartItemORM) : List CartItemResponse :=
  rows.filterMap (fun ci => (resolveGear gear ci.gear_item_id).map
    (fun g => ⟨ci.id, ci.gear_item_id, ci.quantity, g⟩))

/-- `Σ (price × quantity)` over the resolved items of a row list. -/
def cartTotal (gear : List GearItem) (rows : List CartItemORM) : ℚ :=
  ((resolvedItems gear rows).map (fun r => r.gear_item.price * (r.quantity : ℚ))).sum

/-- The contribution of a single row to the cart total. -/
def rowContribution (gear : List GearItem) (ci : CartItemORM) : ℚ :=
  match resolveGear gear ci.gear_item_id with
  | some g => g.price * (ci.quantity : ℚ)
  | none => 0

/-! ### Facts about primary-key lookups -/

theorem scalar_one_or_none_of_len_le_one {α : Type} (l : List α) (h : l.length ≤ 1) :
    scalar_one_or_none l = .ok l.head? := by
  match l with
  | [] => rfl
  | [a] => rfl
  | a :: b :: t => simp at h

theorem length_filter_le_one {α β : Type} [DecidableEq β] (f : α → β) (l : List α)
    (h : (l.map f).Nodup) (b : β) : (l.filter (fun a => f a == b)).length ≤ 1 := by
  induction l with
  | nil => simp
  | cons x xs ih =>
      rw [List.map_cons, List.nodup_cons] at h
      by_cases hx : f x == b
      · have hnil : xs.filter (fun a => f a == b) = [] := by
          rw [List.filter_eq_nil_iff]
          intro a ha hab
          exact h.1 (List.mem_map.mpr ⟨a, ha, by
            have h1 : f a = b := by simpa using hab
            have h2 : f x = b := by simpa using hx
            rw [h1, h2]⟩)
        simp [List.filter_cons, hx, hnil]
      · simpa [List.filter_cons, hx] using ih h.2

theorem lookupGearById_eq_resolve (gear : List GearItem)
    (hnodup : (gear.map (·.id)).Nodup) (gid : Nat) :
    lookupGearById gear gid = .ok (resolveGear gear gid) :=
  scalar_one_or_none_of_len_le_one _ (length_filter_le_one (·.id) gear hnodup gid)

theorem resolvedItems_cons (gear : List GearItem) (ci : CartItemORM)
    (rest : List CartItemORM) :
    resolvedItems gear (ci :: rest)
      = match resolveGear gear ci.gear_item_id with
        | some g => ⟨ci.id, ci.gear_item_id, ci.quantity, g⟩ :: resolvedItems gear rest
        | none => resolvedItems gear rest := by
  unfold resolvedItems
  rw [List.filterMap_cons]
  cases resolveGear gear ci.gear_item_id <;> rfl

theorem cartTotal_cons (gear : List GearItem) (ci : CartItemORM) (rest : List CartItemORM) :
    cartTotal gear (ci :: rest) = rowContribution gear ci + cartTotal gear rest := by
  unfold cartTotal rowContribution
  rw [resolvedItems_cons]
  cases resolveGear gear ci.gear_item_id <;> simp

theorem cartItemsLoop_ok (gear : List GearItem) (hnodup : (gear.map (·.id)).Nodup)
    (rows : List CartItemORM) :
    ∀ (acc : List CartItemResponse) (total : ℚ),
    cartItemsLoop gear rows acc total
      = .ok (acc ++ resolvedItems gear rows, total + cartTotal gear rows) := by
  induction rows with
  | nil => intro acc total; simp [cartItemsLoop, resolvedItems, cartTotal]
  | cons ci rest ih =>
      intro acc total
      unfold cartItemsLoop
      rw [lookupGearById_eq_resolve gear hnodup]
      rw [resolvedItems_cons, cartTotal_cons]
      cases hres : resolveGear gear ci.gear_item_id with
      | none =>
          dsimp only
          rw [ih]
          simp [rowContribution, hres]
      | some g =>
          dsimp only
          rw [ih]
          simp [rowContribution, hres, List.append_assoc, add_assoc]

/-- The user's cart rows: `select(CartItemORM).where(user_id == user.id)`. -/
def userCartRows (s : AppState) (user : UserORM) : List CartItemORM :=
  s.cart_items.filter (fun ci => ci.user_id == user.id)

theorem get_cart_ok (s : AppState) (uname : String) (user : UserORM)
    (huser : s.users.filter (fun u => u.username == uname) = [user])
    (hnodup : (s.gear_items.map (·.id)).Nodup) :
    get_cart s uname
      = .ok ⟨resolvedItems s.gear_items (userCartRows s user),
          cartTotal s.gear_items (userCartRows s user)⟩ := by
  unfold get_cart lookupUserByName userCartRows
  rw [huser]
  dsimp only [scalar_one_or_none]
  rw [cartItemsLoop_ok s.gear_items hnodup]
  simp

theorem resolvedItems_ids (gear : List GearItem) (rows : List CartItemORM) :
    ∀ r ∈ resolvedItems gear rows,
      ∃ ci ∈ rows, r.id = ci.id ∧ resolveGear gear ci.gear_item_id = some r.gear_item := by
  intro r hr
  unfold resolvedItems at hr
  rw [List.mem_filterMap] at hr
  obtain ⟨ci, hci, hmap⟩ := hr
  cases hres : resolveGear gear ci.gear_item_id with
  | none => rw [hres] at hmap; simp at hmap
  | some g =>
      rw [hres] at hmap
      simp only [Option.map] at hmap
      refine ⟨ci, hci, ?_, ?_⟩
      · rw [← Option.some_inj.mp hmap]
      · rw [← Option.some_inj.mp hmap, hres]

/-- C6: `getCart` returns exactly the identity's cart rows whose gear item
still exists, with `total` the sum of `price × quantity` over those resolved
rows (`cartTotal` is by definition that sum over `resolvedItems`); a row
whose gear reference no longer resolves contributes to neither the item
list nor the total and raises no error; an empty cart yields `items = []`,
`total = 0.0`. -/
theorem get_cart_total_skips_dangling (s : AppState) (uname : String) (user : UserORM)
    (huser : s.users.filter (fun u => u.username == uname) = [user])
    (hgearN : (s.gear_items.map (·.id)).Nodup)
    (hcartN : (s.cart_items.map (·.id)).Nodup) :
    get_cart s uname
      = .ok ⟨resolvedItems s.gear_items (userCartRows s user),
          cartTotal s.gear_items (userCartRows s user)⟩ ∧
    (∀ ci ∈ userCartRows s user, resolveGear s.gear_items ci.gear_item_id = none →
        ∀ r ∈ resolvedItems s.gear_items (userCartRows s user), r.id ≠ ci.id) ∧
    (userCartRows s user = [] → get_cart s uname = .ok ⟨[], 0⟩) := by
  have hmain := get_cart_ok s uname user huser hgearN
  refine ⟨hmain, ?_, ?_⟩
  · intro ci hci hdangle r hr heq
    obtain ⟨ci', hci', hid, hres⟩ := resolvedItems_ids _ _ r hr
    have hsub : (userCartRows s user).Sublist s.cart_items := List.filter_sublist _
    have hnodupU : ((userCartRows s user).map (·.id)).Nodup :=
      hcartN.sublist (hsub.map _)
    have hci'ci : ci' = ci :=
      List.inj_on_of_nodup_map hnodupU hci' hci (by rw [← hid]; exact heq)
    rw [hci'ci, hdangle] at hres
    exact Option.noConfusion hres
  · intro hempty
    rw [hmain, hempty]
    simp [resolvedItems, cartTotal]

def wUser : UserORM := ⟨1, "bob", "h", false⟩

def wGear : GearItem := ⟨1, "Mic", Category.microphone, "B", 3, true, none, none, none⟩

/-- A state with one resolving cart row and one dangling cart row. -/
def wState : AppState := ⟨[wUser], [wGear], [⟨1, 1, 1, 2⟩, ⟨2, 1, 99, 5⟩], 2, 3⟩

theorem get_cart_total_skips_dangling_witness :
    get_cart wState "bob"
      = .ok ⟨resolvedItems wState.gear_items (userCartRows wState wUser),
          cartTotal wState.gear_items (userCartRows wState wUser)⟩ ∧
    (∀ ci ∈ userCartRows wState wUser, resolveGear wState.gear_items ci.gear_item_id = none →
        ∀ r ∈ resolvedItems wState.gear_items (userCartRows wState wUser), r.id ≠ ci.id) ∧
    (userCartRows wState wUser = [] → get_cart wState "bob" = .ok ⟨[], 0⟩) :=
  get_cart_total_skips_dangling wState "bob" wUser (by decide) (by decide) (by decide)

/-! ### `addItem` merge semantics (claim C2) -/

theorem filter_map_invariant {α : Type} (f : α → α) (p : α → Bool)
    (h : ∀ a, p (f a) = p a) (l : List α) :
    (l.map f).filter p = (l.filter p).map f := by
  induction l with
  | nil => rfl
  | cons x xs ih => by_cases hx : p x <;> simp [List.filter_cons, h, hx, ih]

/-- C2: for an identity whose cart does not yet contain an existing gear
item, calling `addItem` with `q1` and then `q2` (any sign) leaves exactly
one cart row for that (user, gear item) pair, holding quantity `q1 + q2`;
the merge is pure addition with no floor-at-zero, validation, or deletion. -/
theorem add_to_cart_twice_merges (s : AppState) (uname : String) (user : UserORM)
    (gid : Nat) (q1 q2 : Int)
    (huser : s.users.filter (fun u => u.username == uname) = [user])
    (hgearN : (s.gear_items.map (·.id)).Nodup)
    (hgear : (resolveGear s.gear_items gid).isSome = true)
    (hnone : s.cart_items.filter
        (fun ci => ci.user_id == user.id && ci.gear_item_id == gid) = []) :
    ∃ c1 s1 c2 s2,
      add_to_cart s uname gid q1 = .ok (c1, s1) ∧
      add_to_cart s1 uname gid q2 = .ok (c2, s2) ∧
      s2.cart_items.filter (fun ci => ci.user_id == user.id && ci.gear_item_id == gid)
        = [⟨s.next_cart_item_id, user.id, gid, q1 + q2⟩] := by
  obtain ⟨g, hg⟩ := Option.isSome_iff_exists.mp hgear
  have h1 : ∃ c1, add_to_cart s uname gid q1
      = .ok (c1, { s with
          cart_items := s.cart_items ++ [⟨s.next_cart_item_id, user.id, gid, q1⟩],
          next_cart_item_id := s.next_cart_item_id + 1 }) := by
    unfold add_to_cart lookupUserByName
    rw [huser, lookupGearById_eq_resolve _ hgearN, hg]
    dsimp only [scalar_one_or_none]
    rw [hnone]
    dsimp only
    rw [get_cart_ok { s with
        cart_items := s.cart_items ++ [⟨s.next_cart_item_id, user.id, gid, q1⟩],
        next_cart_item_id := s.next_cart_item_id + 1 } uname user huser hgearN]
    exact ⟨_, rfl⟩
  obtain ⟨c1, h1⟩ := h1
  have hex : (s.cart_items
        ++ [(⟨s.next_cart_item_id, user.id, gid, q1⟩ : CartItemORM)]).filter
        (fun ci => ci.user_id == user.id && ci.gear_item_id == gid)
      = [⟨s.next_cart_item_id, user.id, gid, q1⟩] := by
    rw [List.filter_append, hnone]
    simp
  have h2 : ∃ c2, add_to_cart { s with
        cart_items := s.cart_items ++ [⟨s.next_cart_item_id, user.id, gid, q1⟩],
        next_cart_item_id := s.next_cart_item_id + 1 } uname gid q2
      = .ok (c2, { s with
          cart_items := (s.cart_items
              ++ ([⟨s.next_cart_item_id, user.id, gid, q1⟩] : List CartItemORM)).map (fun ci : CartItemORM =>
                if ci.id == s.next_cart_item_id then { ci with quantity := ci.quantity + q2 }
                else ci),
          next_cart_item_id := s.next_cart_item_id + 1 }) := by
    unfold add_to_cart lookupUserByName
    dsimp only
    rw [huser, lookupGearById_eq_resolve _ hgearN, hg]
    dsimp only [scalar_one_or_none]
    rw [hex]
    dsimp only
    rw [get_cart_ok { s with
        cart_items := (s.cart_items
            ++ ([⟨s.next_cart_item_id, user.id, gid, q1⟩] : List CartItemORM)).map (fun ci : CartItemORM =>
              if ci.id == s.next_cart_item_id then { ci with quantity := ci.quantity + q2 }
              else ci),
        next_cart_item_id := s.next_cart_item_id + 1 } uname user huser hgearN]
    exact ⟨_, rfl⟩
  obtain ⟨c2, h2⟩ := h2
  have hpinv : ∀ ci : CartItemORM,
      (((if ci.id == s.next_cart_item_id then { ci with quantity := ci.quantity + q2 }
          else ci) : CartItemORM).user_id == user.id
        && ((if ci.id == s.next_cart_item_id then { ci with quantity := ci.quantity + q2 }
          else ci) : CartItemORM).gear_item_id == gid)
      = (ci.user_id == user.id && ci.gear_item_id == gid) := by
    intro ci
    by_cases h : ci.id == s.next_cart_item_id
    · rw [if_pos h]
    · rw [if_neg h]
  have h3 : ((s.cart_items
        ++ [(⟨s.next_cart_item_id, user.id, gid, q1⟩ : CartItemORM)]).map (fun ci : CartItemORM =>
          if ci.id == s.next_cart_item_id then { ci with quantity := ci.quantity + q2 }
          else ci)).filter (fun ci => ci.user_id == user.id && ci.gear_item_id == gid)
      = [⟨s.next_cart_item_id, user.id, gid, q1 + q2⟩] := by
    rw [List.map_append, List.filter_append, filter_map_invariant _ _ hpinv, hnone]
    simp
  exact ⟨c1, _, c2, _, h1, h2, h3⟩

/-- A state whose user `bob` has an empty cart. -/
def wAddState : AppState := ⟨[wUser], [wGear], [], 2, 10⟩

theorem add_to_cart_twice_merges_witness :
    ∃ c1 s1 c2 s2,
      add_to_cart wAddState "bob" 1 2 = .ok (c1, s1) ∧
      add_to_cart s1 "bob" 1 (-5) = .ok (c2, s2) ∧
      s2.cart_items.filter (fun ci => ci.user_id == wUser.id && ci.gear_item_id == 1)
        = [⟨wAddState.next_cart_item_id, wUser.id, 1, 2 + (-5)⟩] :=
  add_to_cart_twice_merges wAddState "bob" wUser 1 2 (-5)
    (by decide) (by decide) (by decide) (by decide)

/-! ### `updateItem` semantics (claims C4, C5) -/

theorem filter_bne_eq_self (l : List CartItemORM) (n : Nat)
    (h : ∀ x ∈ l, x.id ≠ n) : l.filter (fun x => x.id != n) = l := by
  apply List.filter_eq_self.mpr
  intro x hx
  simpa using h x hx

theorem cartTotal_erase (gear : List GearItem) (l : List CartItemORM) (ci : CartItemORM)
    (hmem : ci ∈ l) (hnodup : (l.map (·.id)).Nodup) :
    cartTotal gear l
      = cartTotal gear (l.filter (fun x => x.id != ci.id)) + rowContribution gear ci := by
  induction l with
  | nil => cases hmem
  | cons x xs ih =>
      rw [List.map_cons, List.nodup_cons] at hnodup
      rcases List.mem_cons.mp hmem with hx | hx
      · subst hx
        have hxs : xs.filter (fun y => y.id != ci.id) = xs := by
          apply filter_bne_eq_self
          intro y hy hyid
          exact hnodup.1 (hyid ▸ List.mem_map_of_mem _ hy)
        rw [cartTotal_cons, List.filter_cons]
        simp only [bne_self_eq_false, Bool.false_eq_true, if_false, hxs]
        ring
      · have hxid : x.id ≠ ci.id := by
          intro hcontra
          exact hnodup.1 (hcontra ▸ List.mem_map_of_mem _ hx)
        rw [cartTotal_cons, ih hx hnodup.2, List.filter_cons]
        simp only [bne_iff_ne, ne_eq, hxid, not_false_eq_true, if_true, ite_true]
        rw [cartTotal_cons]
        ring

theorem filter_id_eq_unique (l : List CartItemORM) (a : CartItemORM)
    (hmem : a ∈ l) (hnodup : (l.map (·.id)).Nodup) :
    l.filter (fun x => x.id == a.id) = [a] := by
  induction l with
  | nil => cases hmem
  | cons x xs ih =>
      rw [List.map_cons, List.nodup_cons] at hnodup
      rcases List.mem_cons.mp hmem with hx | hx
      · subst hx
        have hxs : xs.filter (fun y => y.id == a.id) = [] := by
          rw [List.filter_eq_nil_iff]
          intro y hy hyid
          exact hnodup.1 ((Nat.eq_of_beq_eq_true (by simpa using hyid)) ▸ List.mem_map_of_mem _ hy)
        rw [List.filter_cons]
        simp [hxs]
      · have hxid : x.id ≠ a.id := by
          intro hcontra
          exact hnodup.1 (hcontra ▸ List.mem_map_of_mem _ hx)
        rw [List.filter_cons]
        simp only [beq_iff_eq, hxid, if_false, ite_false]
        exact ih hx hnodup.2

/-- C4: on the caller's own cart row, `updateItem` with `quantity ≤ 0`
deletes the row — the returned cart contains no item for it and its
`price × quantity` is gone from the total — while `quantity > 0` replaces
the stored quantity with the given value rather than adding to it. -/
theorem update_cart_item_replace_or_delete (s : AppState) (uname : String) (user : UserORM)
    (cid : Nat) (q : Int) (cart_item : CartItemORM)
    (huser : s.users.filter (fun u => u.username == uname) = [user])
    (hitem : s.cart_items.filter (fun ci => ci.id == cid && ci.user_id == user.id) = [cart_item])
    (hgearN : (s.gear_items.map (·.id)).Nodup)
    (hcartN : (s.cart_items.map (·.id)).Nodup) :
    (q ≤ 0 → ∃ cart s',
        update_cart_item s uname cid q = .ok (cart, s') ∧
        s'.cart_items = s.cart_items.filter (fun ci => ci.id != cart_item.id) ∧
        (∀ r ∈ cart.items, r.id ≠ cart_item.id) ∧
        cartTotal s.gear_items (userCartRows s user)
          = cart.total + rowContribution s.gear_items cart_item) ∧
    (0 < q → ∃ cart s',
        update_cart_item s uname cid q = .ok (cart, s') ∧
        s'.cart_items = s.cart_items.map (fun ci : CartItemORM =>
            if ci.id == cart_item.id then { ci with quantity := q } else ci) ∧
        s'.cart_items.filter (fun ci => ci.id == cart_item.id)
          = [{ cart_item with quantity := q }]) := by
  have hmemF : cart_item ∈ s.cart_items.filter
      (fun ci => ci.id == cid && ci.user_id == user.id) := by
    rw [hitem]; exact List.mem_singleton.mpr rfl
  have hmem : cart_item ∈ s.cart_items := List.mem_of_mem_filter hmemF
  have hpred := List.of_mem_filter hmemF
  have huid : cart_item.user_id = user.id := by
    simp only [Bool.and_eq_true, beq_iff_eq] at hpred
    exact hpred.2
  have hmemU : cart_item ∈ userCartRows s user :=
    List.mem_filter.mpr ⟨hmem, by simp [huid]⟩
  have hnodupU : ((userCartRows s user).map (·.id)).Nodup :=
    hcartN.sublist ((List.filter_sublist _).map _)
  constructor
  · intro hq
    unfold update_cart_item lookupUserByName
    rw [huser]
    dsimp only [scalar_one_or_none]
    rw [hitem]
    dsimp only
    rw [if_pos hq]
    rw [get_cart_ok { s with
        cart_items := s.cart_items.filter (fun ci => ci.id != cart_item.id) }
        uname user huser hgearN]
    refine ⟨_, _, rfl, rfl, ?_, ?_⟩
    · intro r hr heq
      obtain ⟨ci', hci', hid, _⟩ := resolvedItems_ids _ _ r hr
      have hci'f : ci' ∈ s.cart_items.filter (fun ci => ci.id != cart_item.id) :=
        List.mem_of_mem_filter hci'
      have := List.of_mem_filter hci'f
      rw [bne_iff_ne] at this
      exact this (hid ▸ heq)
    · have hcomm : userCartRows { s with
          cart_items := s.cart_items.filter (fun ci => ci.id != cart_item.id) } user
          = (userCartRows s user).filter (fun x => x.id != cart_item.id) := by
        show (s.cart_items.filter (fun ci => ci.id != cart_item.id)).filter
            (fun ci => ci.user_id == user.id) = _
        rw [List.filter_comm]
        rfl
      show cartTotal s.gear_items (userCartRows s user)
        = cartTotal s.gear_items (userCartRows { s with
            cart_items := s.cart_items.filter (fun ci => ci.id != cart_item.id) } user)
          + rowContribution s.gear_items cart_item
      rw [hcomm]
      exact cartTotal_erase _ _ _ hmemU hnodupU
  · intro hq
    have hq' : ¬ q ≤ 0 := by omega
    unfold update_cart_item lookupUserByName
    rw [huser]
    dsimp only [scalar_one_or_none]
    rw [hitem]
    dsimp only
    rw [if_neg hq']
    rw [get_cart_ok { s with
        cart_items := s.cart_items.map (fun ci : CartItemORM =>
          if ci.id == cart_item.id then { ci with quantity := q } else ci) }
        uname user huser hgearN]
    refine ⟨_, _, rfl, rfl, ?_⟩
    have hpinv : ∀ ci : CartItemORM,
        (((if ci.id == cart_item.id then { ci with quantity := q }
            else ci) : CartItemORM).id == cart_item.id)
          = (ci.id == cart_item.id) := by
      intro ci
      by_cases h : ci.id == cart_item.id
      · rw [if_pos h]
      · rw [if_neg h]
    show (s.cart_items.map (fun ci : CartItemORM =>
        if ci.id == cart_item.id then { ci with quantity := q } else ci)).filter
          (fun ci => ci.id == cart_item.id) = _
    rw [filter_map_invariant _ _ hpinv, filter_id_eq_unique s.cart_items cart_item hmem hcartN]
    simp

/-- A state whose user `bob` owns cart row 5 for gear item 1. -/
def wUpdState : AppState := ⟨[wUser], [wGear], [⟨5, 1, 1, 2⟩], 2, 6⟩

theorem update_cart_item_replace_or_delete_witness :
    ((-1 : Int) ≤ 0 → ∃ cart s',
        update_cart_item wUpdState "bob" 5 (-1) = .ok (cart, s') ∧
        s'.cart_items = wUpdState.cart_items.filter
          (fun ci => ci.id != (⟨5, 1, 1, 2⟩ : CartItemORM).id) ∧
        (∀ r ∈ cart.items, r.id ≠ (⟨5, 1, 1, 2⟩ : CartItemORM).id) ∧
        cartTotal wUpdState.gear_items (userCartRows wUpdState wUser)
          = cart.total + rowContribution wUpdState.gear_items ⟨5, 1, 1, 2⟩) ∧
    ((0 : Int) < -1 → ∃ cart s',
        update_cart_item wUpdState "bob" 5 (-1) = .ok (cart, s') ∧
        s'.cart_items = wUpdState.cart_items.map (fun ci : CartItemORM =>
            if ci.id == (⟨5, 1, 1, 2⟩ : CartItemORM).id then { ci with quantity := -1 }
            else ci) ∧
        s'.cart_items.filter (fun ci => ci.id == (⟨5, 1, 1, 2⟩ : CartItemORM).id)
          = [{ (⟨5, 1, 1, 2⟩ : CartItemORM) with quantity := -1 }]) :=
  update_cart_item_replace_or_delete wUpdState "bob" wUser 5 (-1) ⟨5, 1, 1, 2⟩
    (by decide) (by decide) (by decide) (by decide)

/-- C5: a cart item id that exists but belongs to a different user makes
both `updateItem` and `removeItem` fail with `NotFound` (the lookup is
scoped to the caller's own user id), never `Forbidden`, and no state is
returned — the handlers raise before any mutation. -/
theorem cross_user_cart_item_not_found (s : AppState) (uname : String) (user : UserORM)
    (cid : Nat) (q : Int) (r : CartItemORM)
    (huser : s.users.filter (fun u => u.username == uname) = [user])
    (hmem : r ∈ s.cart_items) (hid : r.id = cid) (hother : r.user_id ≠ user.id)
    (hcartN : (s.cart_items.map (·.id)).Nodup) :
    update_cart_item s uname cid q = .error (.notFound "Cart item not found") ∧
    remove_from_cart s uname cid = .error (.notFound "Cart item not found") ∧
    .notFound "Cart item not found" ≠ (.forbidden "Cart item not found" : ApiError) := by
  have hscoped : s.cart_items.filter (fun ci => ci.id == cid && ci.user_id == user.id) = [] := by
    rw [List.filter_eq_nil_iff]
    intro ci hci hpred
    simp only [Bool.and_eq_true, beq_iff_eq] at hpred
    have : ci = r := List.inj_on_of_nodup_map hcartN hci hmem (by rw [hpred.1, hid])
    exact hother (this ▸ hpred.2)
  refine ⟨?_, ?_, by intro h; cases h⟩
  · unfold update_cart_item lookupUserByName
    rw [huser]
    dsimp only [scalar_one_or_none]
    rw [hscoped]
  · unfold remove_from_cart lookupUserByName
    rw [huser]
    dsimp only [scalar_one_or_none]
    rw [hscoped]

/-- A second user owning cart row 7. -/
def wUserOther : UserORM := ⟨2, "eve", "h2", false⟩

/-- A state where cart row 7 belongs to `eve`, not to `bob`. -/
def wCrossState : AppState := ⟨[wUser, wUserOther], [wGear], [⟨7, 2, 1, 1⟩], 3, 8⟩

theorem cross_user_cart_item_not_found_witness :
    update_cart_item wCrossState "bob" 7 3 = .error (.notFound "Cart item not found") ∧
    remove_from_cart wCrossState "bob" 7 = .error (.notFound "Cart item not found") ∧
    .notFound "Cart item not found" ≠ (.forbidden "Cart item not found" : ApiError) :=
  cross_user_cart_item_not_found wCrossState "bob" wUser 7 3 ⟨7, 2, 1, 1⟩
    (by decide) (by decide) (by decide) (by decide) (by decide)

/-! ### Admin user deletion (`admin.py::admin_delete_user`, claim C7) -/

/-- `DELETE /api/admin/users/{user_id}`.  Guard order as in the source:
target lookup, self-deletion guard, protected seed-admin guard, then the
target's cart rows and the target row are deleted in one commit. -/
def admin_delete_user (s : AppState) (current_user : User) (user_id : Nat) :
    Except ApiError AppState :=
  match scalar_one_or_none (s.users.filter (fun u => u.id == user_id)) with
  | .error e => .error e
  | .ok none => .error (.notFound "User not found")
  | .ok (some user_to_delete) =>
      if user_to_delete.username == current_user.username then
        .error (.forbidden "Cannot delete your own account")
      else if user_to_delete.username == "admin" && user_to_delete.is_admin then
        .error (.forbidden "Cannot delete the default admin account")
      else
        .ok { s with
          cart_items := s.cart_items.filter (fun ci => ci.user_id != user_id),
          users := s.users.filter (fun u => u.id != user_to_delete.id) }

/-- C7: `deleteUser` fails `NotFound` on an absent target id; fails
`Forbidden` when the target is the caller themself or is the protected
`"admin"`/`is_admin` seed account, whatever the caller; otherwise it
deletes the target's cart rows and the target row in one state transition,
leaving no cart row that references the deleted user. -/
theorem admin_delete_user_guards (s : AppState) (current_user : User) (user_id : Nat) :
    (s.users.filter (fun u => u.id == user_id) = [] →
        admin_delete_user s current_user user_id = .error (.notFound "User not found")) ∧
    (∀ target, s.users.filter (fun u => u.id == user_id) = [target] →
      ((target.username = current_user.username →
          admin_delete_user s current_user user_id
            = .error (.forbidden "Cannot delete your own account")) ∧
       (target.username ≠ current_user.username → target.username = "admin" →
          target.is_admin = true →
          admin_delete_user s current_user user_id
            = .error (.forbidden "Cannot delete the default admin account")) ∧
       (target.username ≠ current_user.username →
          ¬(target.username = "admin" ∧ target.is_admin = true) →
          admin_delete_user s current_user user_id
            = .ok { s with
                cart_items := s.cart_items.filter (fun ci => ci.user_id != user_id),
                users := s.users.filter (fun u => u.id != target.id) } ∧
          ∀ ci ∈ s.cart_items.filter (fun ci => ci.user_id != user_id),
            ci.user_id ≠ user_id))) := by
  constructor
  · intro hempty
    unfold admin_delete_user
    rw [hempty]
    rfl
  · intro target htarget
    have heval : admin_delete_user s current_user user_id
        = (if target.username == current_user.username then
            .error (.forbidden "Cannot delete your own account")
          else if target.username == "admin" && target.is_admin then
            .error (.forbidden "Cannot delete the default admin account")
          else
            .ok { s with
              cart_items := s.cart_items.filter (fun ci => ci.user_id != user_id),
              users := s.users.filter (fun u => u.id != target.id) }) := by
      unfold admin_delete_user
      rw [htarget]
      rfl
    refine ⟨?_, ?_, ?_⟩
    · intro hself
      rw [heval, if_pos (by simp [hself])]
    · intro hns hadm hisadm
      have hc1 : ¬ ((target.username == current_user.username) = true) := by
        simpa using hns
      rw [heval, if_neg hc1, if_pos (by simp [hadm, hisadm])]
    · intro hns hnadm
      have hc1 : ¬ ((target.username == current_user.username) = true) := by
        simpa using hns
      have hc2 : ¬ ((target.username == "admin" && target.is_admin) = true) := by
        simp only [Bool.and_eq_true, beq_iff_eq]
        intro h
        exact hnadm ⟨h.1, h.2⟩
      rw [heval, if_neg hc1, if_neg hc2]
      refine ⟨rfl, ?_⟩
      intro ci hci
      have := List.of_mem_filter hci
      simpa using this

/-- The protected seed admin row. -/
def wSeedAdmin : UserORM := ⟨4, "admin", "ha", true⟩

/-- The acting admin identity. -/
def wRootUser : User := ⟨"root", true⟩

/-- A state holding `bob` (with a cart row), the seed `admin`, and `root`. -/
def wDelState : AppState :=
  ⟨[wUser, wSeedAdmin, ⟨5, "root", "hr", true⟩], [wGear], [⟨9, 1, 1, 4⟩], 6, 10⟩

theorem admin_delete_user_guards_witness :
    (wDelState.users.filter (fun u => u.id == 1) = [] →
        admin_delete_user wDelState wRootUser 1 = .error (.notFound "User not found")) ∧
    (∀ target, wDelState.users.filter (fun u => u.id == 1) = [target] →
      ((target.username = wRootUser.username →
          admin_delete_user wDelState wRootUser 1
            = .error (.forbidden "Cannot delete your own account")) ∧
       (target.username ≠ wRootUser.username → target.username = "admin" →
          target.is_admin = true →
          admin_delete_user wDelState wRootUser 1
            = .error (.forbidden "Cannot delete the default admin account")) ∧
       (target.username ≠ wRootUser.username →
          ¬(target.username = "admin" ∧ target.is_admin = true) →
          admin_delete_user wDelState wRootUser 1
            = .ok { wDelState with
                cart_items := wDelState.cart_items.filter (fun ci => ci.user_id != 1),
                users := wDelState.users.filter (fun u => u.id != target.id) } ∧
          ∀ ci ∈ wDelState.cart_items.filter (fun ci => ci.user_id != 1),
            ci.user_id ≠ 1))) :=
  admin_delete_user_guards wDelState wRootUser 1

/-! ### Authentication Gate (`auth.py`, claim C3) -/

/-- Python truthiness of an optional string credential: absent or empty is
falsy. -/
def truthyStr : Option String → Bool
  | none => false
  | some s => !(s == "")

/-- `auth.py::verify_token`, parametric in the external `jwt.decode`
primitive: `decode t = none` models a `JWTError` (bad signature or
expired); `decode t = some subClaim` models a verified payload whose
optional `"sub"` claim is `subClaim`. -/
def verify_token (decode : String → Option (Option String)) (token : String) :
    Option String :=
  match decode token with
  | none => none
  | some sub => sub

/-- `auth.py::get_current_user`: the OAuth2 form token takes precedence
when truthily present, else the HTTP bearer credential; a missing token,
a failed verification, a falsy subject, or a subject with no user row
raises 401. -/
def get_current_user (decode : String → Option (Option String)) (s : AppState)
    (oauth2_token http_auth : Option String) : Except ApiError User :=
  let token : Option String :=
    if truthyStr oauth2_token then oauth2_token
    else match http_auth with
      | some cred => some cred
      | none => none
  if !truthyStr token then .error .unauthenticated
  else
    match verify_token decode (token.getD "") with
    | none => .error .unauthenticated
    | some username =>
        if username == "" then .error .unauthenticated
        else
          match lookupUserByName s username with
          | .error e => .error e
          | .ok none => .error .unauthenticated
          | .ok (some u) => .ok ⟨u.username, u.is_admin⟩

/-- The token as presented, per the claim's wording: the OAuth2 form token
when present, else the bearer credential; an empty string counts as not
presented. -/
def presentedToken (oauth2_token http_auth : Option String) : Option String :=
  let token : Option String :=
    if truthyStr oauth2_token then oauth2_token else http_auth
  if truthyStr token then token else none

/-- The authentication contract exactly as the claim states it:
`Unauthenticated` precisely when no token is presented, the presented token
fails verification, or the verified subject resolves to no user row; in
every other case the resolved row's identity. -/
def authSpec (decode : String → Option (Option String)) (s : AppState)
    (oauth2_token http_auth : Option String) : Except ApiError User :=
  match presentedToken oauth2_token http_auth with
  | none => .error .unauthenticated
  | some t =>
      match verify_token decode t with
      | none => .error .unauthenticated
      | some sub =>
          match s.users.find? (fun u => u.username == sub) with
          | none => .error .unauthenticated
          | some u => .ok ⟨u.username, u.is_admin⟩

theorem head?_filter_eq_find? {α : Type} (p : α → Bool) (l : List α) :
    (l.filter p).head? = l.find? p := by
  induction l with
  | nil => rfl
  | cons x xs ih =>
      by_cases hx : p x
      · rw [List.find?_cons_of_pos _ hx, List.filter_cons_of_pos hx]
        rfl
      · rw [List.find?_cons_of_neg _ hx, List.filter_cons_of_neg hx]
        exact ih

/-- C3: the authentication gate equals the claim's contract: it fails with
`Unauthenticated` (401) exactly when no token is presented via either
scheme, the presented token fails verification, or the verified subject no
longer resolves to an existing user row — never a stale identity — and on
a verified token with a resolving subject it returns that row's identity. -/
theorem get_current_user_matches_authSpec (decode : String → Option (Option String))
    (s : AppState) (oauth2_token http_auth : Option String)
    (hvalid : ∀ u ∈ s.users, u.username ≠ "")
    (hnodup : (s.users.map (·.username)).Nodup) :
    get_current_user decode s oauth2_token http_auth
      = authSpec decode s oauth2_token http_auth := by
  have hfind : ∀ uname, lookupUserByName s uname
      = .ok (s.users.find? (fun u => u.username == uname)) := by
    intro uname
    unfold lookupUserByName
    rw [scalar_one_or_none_of_len_le_one _
      (length_filter_le_one (·.username) s.users hnodup uname),
      head?_filter_eq_find?]
  have hempty : s.users.find? (fun u => u.username == "") = none := by
    rw [List.find?_eq_none]
    intro u hu
    simpa using hvalid u hu
  have hmerge : (match http_auth with
      | some cred => some cred
      | none => none) = http_auth := by
    cases http_auth <;> rfl
  unfold get_current_user authSpec presentedToken
  dsimp only
  rw [hmerge]
  simp only [hfind]
  generalize (if truthyStr oauth2_token then oauth2_token else http_auth) = tok
  cases tok with
  | none => rfl
  | some t =>
      by_cases ht : t = ""
      · subst ht
        rfl
      · have htr : truthyStr (some t) = true := by simp [truthyStr, ht]
        simp only [htr, Bool.not_true, Bool.false_eq_true, if_false, if_true, Option.getD_some]
        cases hver : verify_token decode t with
        | none => rfl
        | some sub =>
            by_cases hsub : sub = ""
            · subst hsub
              simp [hempty]
            · simp only [beq_iff_eq, hsub, if_false, ite_false]
              cases s.users.find? (fun u => u.username == sub) <;> rfl

/-- A concrete token-service behaviour for witnesses. -/
def wDecode : String → Option (Option String)
  | "goodtoken" => some (some "bob")
  | "nosub" => some none
  | _ => none

theorem get_current_user_matches_authSpec_witness :
    get_current_user wDecode wState (some "goodtoken") none
      = authSpec wDecode wState (some "goodtoken") none :=
  get_current_user_matches_authSpec wDecode wState (some "goodtoken") none
    (by decide) (by decide)

/-! ### Registration and login (`auth.py`, claims C9, C10) -/

/-- `POST /auth/register` (`auth.py::register_user`), parametric in the
hashing primitive.  Strips the username, validates, checks case-insensitive
uniqueness, then persists a non-admin row; returns the committed state. -/
def register_user (hash : String → String) (s : AppState)
    (username0 password0 : String) : Except ApiError AppState :=
  let username := pyStrip username0
  let password := password0
  if username.length < 3 || 32 < username.length then
    .error (.validation "Username must be 3-32 characters")
  else if username.data.any isPySpace then
    .error (.validation "Username must not contain whitespace")
  else if password.length < 6 || 128 < password.length then
    .error (.validation "Password must be 6-128 characters")
  else
    match scalar_one_or_none (s.users.filter
        (fun u => asciiLower u.username == asciiLower username)) with
    | .error e => .error e
    | .ok (some _) => .error (.conflict "Username already taken")
    | .ok none =>
        .ok { s with
          users := s.users ++ [⟨s.next_user_id, username, hash password, false⟩],
          next_user_id := s.next_user_id + 1 }

/-- `auth.py::authenticate_user`, parametric in the hash-verify
primitive: exact-username lookup, then `verify_password`. -/
def authenticate_user (verify : String → String → Bool) (s : AppState)
    (username password : String) : Except ApiError (Option UserORM) :=
  match lookupUserByName s username with
  | .error e => .error e
  | .ok none => .ok none
  | .ok (some user) =>
      if !verify password user.hashed_password then .ok none
      else .ok (some user)

/-- The access token issued by `create_access_token({"sub": username})`:
signing and expiry belong to the Token Service; the subject claim is the
data this core controls. -/
structure IssuedToken where
  sub : String
deriving DecidableEq

/-- `POST /auth/token` (`auth.py::login_for_access_token`). -/
def login_for_access_token (verify : String → String → Bool) (s : AppState)
    (username password : String) : Except ApiError IssuedToken :=
  match authenticate_user verify s username password with
  | .error e => .error e
  | .ok none => .error .incorrectCredentials
  | .ok (some user) => .ok ⟨user.username⟩

theorem scalar_one_or_none_ok_none {α : Type} (l : List α)
    (h : scalar_one_or_none l = .ok none) : l = [] := by
  cases l with
  | nil => rfl
  | cons a t =>
      cases t with
      | nil => simp [scalar_one_or_none] at h
      | cons b t2 => simp [scalar_one_or_none] at h

/-- Inversion of a successful registration: the case-insensitive uniqueness
check found nothing, and the committed state appends a non-admin row under
the stripped username with the hashed password. -/
theorem register_user_ok_inv (hash : String → String) (s : AppState) (u p : String)
    (s' : AppState) (hreg : register_user hash s u p = .ok s') :
    s.users.filter (fun x => asciiLower x.username == asciiLower (pyStrip u)) = [] ∧
    s' = { s with
      users := s.users ++ [⟨s.next_user_id, pyStrip u, hash p, false⟩],
      next_user_id := s.next_user_id + 1 } := by
  unfold register_user at hreg
  dsimp only at hreg
  split at hreg
  · cases hreg
  · split at hreg
    · cases hreg
    · split at hreg
      · cases hreg
      · cases hm : scalar_one_or_none (s.users.filter
            (fun x => asciiLower x.username == asciiLower (pyStrip u))) with
        | error e => rw [hm] at hreg; cases hreg
        | ok o =>
            rw [hm] at hreg
            cases o with
            | some w => cases hreg
            | none =>
                exact ⟨scalar_one_or_none_ok_none _ hm, (Except.ok.inj hreg).symm⟩

/-- C10: registration strips surrounding whitespace from the username
before the length, whitespace, and uniqueness checks, and stores the row
under the trimmed username. -/
theorem register_strips_username (hash : String → String) (s : AppState) (u p : String)
    (hlen : 3 ≤ (pyStrip u).length ∧ (pyStrip u).length ≤ 32)
    (hws : ∀ c ∈ (pyStrip u).data, ¬ isPySpace c)
    (hpw : 6 ≤ p.length ∧ p.length ≤ 128)
    (huniq : s.users.filter
        (fun x => asciiLower x.username == asciiLower (pyStrip u)) = []) :
    register_user hash s u p
      = .ok { s with
          users := s.users ++ [⟨s.next_user_id, pyStrip u, hash p, false⟩],
          next_user_id := s.next_user_id + 1 } := by
  unfold register_user
  dsimp only
  rw [if_neg (by simp only [Bool.or_eq_true, decide_eq_true_eq]; omega)]
  rw [if_neg (by
    simp only [List.any_eq_true]
    rintro ⟨c, hc, hcp⟩
    exact hws c hc hcp)]
  rw [if_neg (by simp only [Bool.or_eq_true, decide_eq_true_eq]; omega)]
  rw [huniq]
  rfl

/-- C9: after any successful registration, logging in with the registered
(stripped) username and the same password succeeds and yields a token whose
subject claim equals that username. -/
theorem register_then_login_succeeds (hash : String → String)
    (verify : String → String → Bool) (s : AppState) (u p : String) (s' : AppState)
    (hverify : ∀ pw, verify pw (hash pw) = true)
    (hreg : register_user hash s u p = .ok s') :
    login_for_access_token verify s' (pyStrip u) p = .ok ⟨pyStrip u⟩ := by
  obtain ⟨huniq, hs'⟩ := register_user_ok_inv hash s u p s' hreg
  subst hs'
  have hexact : s.users.filter (fun x => x.username == pyStrip u) = [] := by
    rw [List.filter_eq_nil_iff] at huniq ⊢
    intro x hx hbeq
    apply huniq x hx
    have hx' : x.username = pyStrip u := by simpa using hbeq
    rw [hx']
    simp
  have hnew : (s.users ++ [(⟨s.next_user_id, pyStrip u, hash p, false⟩ : UserORM)]).filter
      (fun x => x.username == pyStrip u)
      = [⟨s.next_user_id, pyStrip u, hash p, false⟩] := by
    rw [List.filter_append, hexact]
    simp
  unfold login_for_access_token authenticate_user lookupUserByName
  dsimp only
  rw [hnew]
  dsimp only [scalar_one_or_none]
  rw [hverify p]
  rfl

/-- An empty store. -/
def wEmptyState : AppState := ⟨[], [], [], 0, 0⟩

/-- A trivial hashing primitive for witnesses. -/
def wHash : String → String := fun pw => pw

/-- The matching verify primitive. -/
def wVerify : String → String → Bool := fun pw h => pw == h

theorem register_strips_username_witness :
    register_user wHash wEmptyState "  bob  " "secret"
      = .ok { wEmptyState with
          users := wEmptyState.users
            ++ [⟨wEmptyState.next_user_id, pyStrip "  bob  ", wHash "secret", false⟩],
          next_user_id := wEmptyState.next_user_id + 1 } :=
  register_strips_username wHash wEmptyState "  bob  " "secret"
    (by decide) (by decide) (by decide) (by decide)

theorem register_then_login_succeeds_witness :
    login_for_access_token wVerify ⟨[⟨0, "bob", "secret", false⟩], [], [], 1, 0⟩
        (pyStrip "bob") "secret"
      = .ok ⟨pyStrip "bob"⟩ :=
  register_then_login_succeeds wHash wVerify wEmptyState "bob" "secret"
    ⟨[⟨0, "bob", "secret", false⟩], [], [], 1, 0⟩
    (fun pw => by simp [wVerify, wHash]) (by rfl)
